import Mathlib

/-!
Shallow embedding of the padloc client core:

* `packages/core/src/error.ts` — the `ErrorCode` enumeration, the default
  message/status tables, the `Err` class constructor, and `errFromRequest`.
* the client call pipeline (`Client.call`) — envelope construction,
  per-request session authentication, transport dispatch, structured-error
  interception, response verification, and progress propagation.

JavaScript `||` chains on strings and numbers are falsy-coalescing: the
empty string and the number `0` fall through to the next alternative.  The
helpers `jsOrStr` / `jsOrNat` embed exactly that semantics.
-/

namespace Padloc

/-- The closed `ErrorCode` enumeration from `error.ts`, one constructor per
enum member, in source order. -/
inductive ErrorCode where
  | INVALID_CONTAINER_DATA
  | UNSUPPORTED_CONTAINER_VERSION
  | INVALID_ENCRYPTION_PARAMS
  | INVALID_KEY_WRAP_PARAMS
  | INVALID_KEY_PARAMS
  | DECRYPTION_FAILED
  | ENCRYPTION_FAILED
  | NOT_SUPPORTED
  | PUBLIC_KEY_MISMATCH
  | MISSING_ACCESS
  | FAILED_CONNECTION
  | UNEXPECTED_REDIRECT
  | BAD_REQUEST
  | INVALID_SESSION
  | SESSION_EXPIRED
  | DEPRECATED_API_VERSION
  | INSUFFICIENT_PERMISSIONS
  | RATE_LIMIT_EXCEEDED
  | INVALID_CREDENTIALS
  | ACCOUNT_EXISTS
  | EMAIL_VERIFICATION_FAILED
  | INVALID_RESPONSE
  | INVALID_REQUEST
  | MERGE_CONFLICT
  | MAX_REQUEST_SIZE_EXCEEDED
  | STORAGE_QUOTA_EXCEEDED
  | CLIENT_ERROR
  | SERVER_ERROR
  | UNKNOWN_ERROR
  | ENCODING_ERROR
  | NOT_FOUND
  | INVALID_CSV
deriving DecidableEq

/-- The sparse `messages` table from `error.ts`: default human message for a
small subset of codes; every other code has no entry (`none`). -/
def messages : ErrorCode → Option String
  | ErrorCode.EMAIL_VERIFICATION_FAILED => some "Email verification failed."
  | ErrorCode.INVALID_CREDENTIALS => some "Username or password incorrect."
  | ErrorCode.ACCOUNT_EXISTS => some "This account already exists."
  | _ => none

/-- The sparse `statusCodes` table from `error.ts`: default HTTP status for a
subset of codes; every other code has no entry (`none`). -/
def statusCodes : ErrorCode → Option Nat
  | ErrorCode.BAD_REQUEST => some 400
  | ErrorCode.EMAIL_VERIFICATION_FAILED => some 400
  | ErrorCode.INVALID_SESSION => some 401
  | ErrorCode.SESSION_EXPIRED => some 401
  | ErrorCode.INVALID_CREDENTIALS => some 401
  | ErrorCode.INSUFFICIENT_PERMISSIONS => some 403
  | ErrorCode.NOT_FOUND => some 404
  | ErrorCode.DEPRECATED_API_VERSION => some 406
  | ErrorCode.ACCOUNT_EXISTS => some 409
  | _ => none

/-- A plain JavaScript `Error` value, reduced to the one field the embedded
code reads (`message`). -/
structure JsError where
  message : String
deriving DecidableEq

/-- JavaScript `a || d` for string-or-undefined `a`: `undefined` and the
empty string are falsy and fall through to `d`. -/
def jsOrStr (a : Option String) (d : String) : String :=
  match a with
  | some s => if s = "" then d else s
  | none => d

/-- JavaScript `a || d` for number-or-undefined `a`: `undefined` and `0` are
falsy and fall through to `d`. -/
def jsOrNat (a : Option Nat) (d : Nat) : Nat :=
  match a with
  | some n => if n = 0 then d else n
  | none => d

/-- The options object of the `Err` constructor:
`{ report?, display?, status?, error? }`; absent fields are `none`. -/
structure ErrOpts where
  report : Option Bool
  display : Option Bool
  status : Option Nat
  error : Option JsError
deriving DecidableEq

/-- The empty options object `{}` (every field absent). -/
def ErrOpts.default : ErrOpts := ⟨none, none, none, none⟩

/-- The `Err` class from `error.ts`, reduced to its own fields
(the inherited `Error.message` included). -/
structure Err where
  code : ErrorCode
  message : String
  status : Nat
  report : Bool
  display : Bool
  originalError : Option JsError
deriving DecidableEq

/-- The `Err` constructor from `error.ts`:

* `super(message || messages[code] || (opts.error && opts.error.message) || "")`
* `this.status = opts.status || statusCodes[code] || 500`
* `this.report = opts.report || false`
* `this.display = opts.report || false`  (sic: reads `opts.report`)
* `this.originalError = opts.error`
-/
def mkErr (code : ErrorCode) (message : Option String) (opts : ErrOpts) : Err :=
  { code := code
    message := jsOrStr message (jsOrStr (messages code) (jsOrStr (opts.error.map JsError.message) ""))
    status := jsOrNat opts.status (jsOrNat (statusCodes code) 500)
    report := opts.report.getD false
    display := opts.report.getD false
    originalError := opts.error }

/-- The structured error wire shape `{ error: <ErrorCode string>, message }`
that `unmarshal` may extract from a failed response body.

Modelled from the spec: `unmarshal` lives in `encoding.ts`, which is not part
of the sources; its outcome on the response body (a recognizable structured
payload, or a parse failure) is therefore supplied to `errFromRequest` as an
explicit `Option` argument rather than recomputed from the body text. -/
structure StructuredPayload where
  error : ErrorCode
  message : String
deriving DecidableEq

/-- `errFromRequest` from `error.ts`, over the observable parts of the
`XMLHttpRequest` argument — `responseText`, the numeric `status`, and the
outcome of `unmarshal(responseText)` (see `StructuredPayload`).  On parse
failure it switches on `request.status.toString()[0]`, the first character of
the decimal rendering of the status. -/
def errFromRequest (parsed : Option StructuredPayload) (responseText : String)
    (status : Nat) : Err :=
  match parsed with
  | some p => mkErr p.error (some p.message) ⟨none, none, some status, none⟩
  | none =>
    if (Nat.repr status).front = '0' then
      mkErr ErrorCode.FAILED_CONNECTION (some responseText) ⟨none, none, some status, none⟩
    else if (Nat.repr status).front = '3' then
      mkErr ErrorCode.UNEXPECTED_REDIRECT (some responseText) ⟨none, none, some status, none⟩
    else if (Nat.repr status).front = '4' then
      mkErr ErrorCode.CLIENT_ERROR (some responseText) ⟨none, none, some status, none⟩
    else
      mkErr ErrorCode.SERVER_ERROR (some responseText) ⟨none, none, some status, none⟩

/-- A request envelope: `{ method, params, device }` as built by
`Client.call`.  `params` and device metadata are opaque payloads the
pipeline forwards without inspecting; they are type parameters `P` / `D`. -/
structure Request (P D : Type) where
  method : String
  params : Option P
  device : D
deriving DecidableEq

/-- The structured `error` field a response envelope may carry:
`{ code, message }`.  The code string is cast to `ErrorCode` by the caller
(`(res.error.code as any) as ErrorCode`). -/
structure ResError where
  code : ErrorCode
  message : String
deriving DecidableEq

/-- A response envelope, over an opaque payload type `R` for everything the
pipeline does not inspect (`result`, verification metadata, …).  The pipeline
itself only reads the `error` field. -/
structure Response (R : Type) where
  error : Option ResError
  payload : R
deriving DecidableEq

/-- The `RequestProgress` object, reduced to the fields the spec gives it:
the transport-written byte counters and the terminal `error` field written by
the pipeline.  A stored error is either a raw transport exception (`.inl`, of
opaque type `ε`) or a typed `Err` (`.inr`).

Modelled from the spec: `transport.ts` is not part of the sources; the spec
describes `TransferProgress` as `loaded`, `total` and a terminal `error`. -/
structure RequestProgress (ε : Type) where
  loaded : Nat
  total : Nat
  error : Option (Sum ε Err)
deriving DecidableEq

/-- The session capability consumed by the pipeline.

Modelled from the spec: `session.ts` is not part of the sources; the spec
gives the contract `authenticate(envelope) → void | error` (the envelope is
authenticated in place, so we return the authenticated envelope) and
`verify(responseEnvelope) → boolean` (async, so it may also fail with an
exception, modelled by `Except`). -/
structure Session (P D R ε : Type) where
  authenticate : Request P D → Except ε (Request P D)
  verify : Response R → Except ε Bool

/-- The transport capability consumed by the pipeline.

Modelled from the spec: `transport.ts` is not part of the sources; the spec
gives the contract `send(envelope, progress?) → responseEnvelope`, raising on
any transport-level failure.  The byte-counter updates the transport makes to
`progress` during flight are irrelevant to the claims and are not modelled;
only the response-or-exception outcome is. -/
structure Sender (P D R ε : Type) where
  send : Request P D → Except ε (Response R)

/-- The part of `ClientState` that `Client.call` reads: the nullable
`session` and the `device` descriptor. -/
structure ClientState (P D R ε : Type) where
  session : Option (Session P D R ε)
  device : D

/-- The point at which `Client.call` failed, carrying the raised value.
The caller of `call` observes only the raised value (`CallFailure.payload`);
the constructor records which statement raised it. -/
inductive CallFailure (ε : Type) where
  | authFailed (e : ε)
  | transportFailed (e : ε)
  | structuredError (err : Err)
  | verifyRejected (err : Err)
  | verifyFailed (e : ε)
deriving DecidableEq

/-- The value a `CallFailure` raises to the caller of `call`. -/
def CallFailure.payload {ε : Type} : CallFailure ε → Sum ε Err
  | CallFailure.authFailed e => Sum.inl e
  | CallFailure.transportFailed e => Sum.inl e
  | CallFailure.structuredError err => Sum.inr err
  | CallFailure.verifyRejected err => Sum.inr err
  | CallFailure.verifyFailed e => Sum.inl e

/-- The three observable collaborator invocations `Client.call` can make, in
the order they appear in its body. -/
inductive EvKind where
  | authenticate
  | send
  | verify
deriving DecidableEq

/-- The full observable outcome of one `Client.call` invocation: the
returned response or raised failure, the final state of the supplied
progress object (`none` when none was supplied), the sequence of
collaborator invocations, and the envelope handed to the transport
(`none` when the transport was never reached). -/
structure CallOutcome (P D R ε : Type) where
  result : Except (CallFailure ε) (Response R)
  progress : Option (RequestProgress ε)
  trace : List EvKind
  sentReq : Option (Request P D)

/-- `if (progress) progress.error = e` — write a terminal error to the
progress object when one was supplied. -/
def setProgressError {ε : Type} (progress : Option (RequestProgress ε))
    (e : Sum ε Err) : Option (RequestProgress ε) :=
  progress.map fun p => { p with error := some e }

/-- Step 2 of the pipeline, `if (session) await session.authenticate(req)`:
with no session the envelope passes through unauthenticated; with a session
the envelope is authenticated (or the session's rejection propagates). -/
def authStep {P D R ε : Type} (session : Option (Session P D R ε))
    (req : Request P D) : Except ε (Request P D) :=
  match session with
  | some s => s.authenticate req
  | none => Except.ok req

/-- Does this failure path assign `progress.error` before raising?  True
exactly for the three paths with an explicit `if (progress)` guard in the
source: a transport exception, a structured application error, and a
negative verification result. -/
def CallFailure.writesProgress {ε : Type} : CallFailure ε → Bool
  | CallFailure.transportFailed _ => true
  | CallFailure.structuredError _ => true
  | CallFailure.verifyRejected _ => true
  | CallFailure.authFailed _ => false
  | CallFailure.verifyFailed _ => false

/-- `Client.call` from the client source file, as a function of the captured
`state` (session, device), the injected `sender`, and the call arguments.
Mirrors the body statement by statement:

1. `const req = { method, params, device: this.state.device }`;
2. `if (session) await session.authenticate(req)` — a rejection here
   propagates without touching `progress`;
3. `res = await this.sender.send(req, progress)` — on a raised `e`,
   `progress.error = e` (if supplied) and `e` is re-raised;
4. `if (res.error)` — build `new Err(res.error.code, res.error.message)`,
   set it on `progress` (if supplied), raise it;
5. `if (session && !(await session.verify(res)))` — a rejection of `verify`
   itself propagates without touching `progress`; a `false` result builds
   `new Err(ErrorCode.INVALID_RESPONSE)`, sets it on `progress` (if
   supplied) and raises it;
6. otherwise `return res`. -/
def Client.call {P D R ε : Type} (state : ClientState P D R ε)
    (sender : Sender P D R ε) (method : String) (params : Option P)
    (progress : Option (RequestProgress ε)) : CallOutcome P D R ε :=
  let req : Request P D := ⟨method, params, state.device⟩
  let auth : Except ε (Request P D) := authStep state.session req
  let authTrace : List EvKind :=
    match state.session with
    | some _ => [EvKind.authenticate]
    | none => []
  match auth with
  | Except.error e => ⟨Except.error (CallFailure.authFailed e), progress, authTrace, none⟩
  | Except.ok req' =>
    match sender.send req' with
    | Except.error e =>
        ⟨Except.error (CallFailure.transportFailed e),
         setProgressError progress (Sum.inl e), authTrace ++ [EvKind.send], some req'⟩
    | Except.ok res =>
      match res.error with
      | some re =>
          let err := mkErr re.code (some re.message) ErrOpts.default
          ⟨Except.error (CallFailure.structuredError err),
           setProgressError progress (Sum.inr err), authTrace ++ [EvKind.send], some req'⟩
      | none =>
        match state.session with
        | some s =>
          match s.verify res with
          | Except.error e =>
              ⟨Except.error (CallFailure.verifyFailed e), progress,
               authTrace ++ [EvKind.send, EvKind.verify], some req'⟩
          | Except.ok false =>
              let err := mkErr ErrorCode.INVALID_RESPONSE none ErrOpts.default
              ⟨Except.error (CallFailure.verifyRejected err),
               setProgressError progress (Sum.inr err),
               authTrace ++ [EvKind.send, EvKind.verify], some req'⟩
          | Except.ok true =>
              ⟨Except.ok res, progress, authTrace ++ [EvKind.send, EvKind.verify], some req'⟩
        | none => ⟨Except.ok res, progress, authTrace ++ [EvKind.send], some req'⟩

/-! ### Concrete fixtures

Small concrete collaborators (over `Unit` payload types) used to evaluate
the pipeline on closed inputs. -/

/-- A session that authenticates every envelope unchanged and accepts every
response. -/
def acceptingSession : Session Unit Unit Unit Unit :=
  ⟨fun r => Except.ok r, fun _ => Except.ok true⟩

/-- A session that authenticates every envelope unchanged and answers
`false` to every verification request. -/
def rejectingSession : Session Unit Unit Unit Unit :=
  ⟨fun r => Except.ok r, fun _ => Except.ok false⟩

/-- A transport that answers every envelope with an error-free response. -/
def okSender : Sender Unit Unit Unit Unit :=
  ⟨fun _ => Except.ok ⟨none, ()⟩⟩

/-- A transport that answers every envelope with a response carrying the
structured error `{ code: INVALID_SESSION, message: "nope" }`. -/
def appErrorSender : Sender Unit Unit Unit Unit :=
  ⟨fun _ => Except.ok ⟨some ⟨ErrorCode.INVALID_SESSION, "nope"⟩, ()⟩⟩

/-- A transport that raises on every envelope. -/
def failingSender : Sender Unit Unit Unit Unit :=
  ⟨fun _ => Except.error ()⟩

/-- A client state holding the given session and a unit device. -/
def stateWith (s : Option (Session Unit Unit Unit Unit)) :
    ClientState Unit Unit Unit Unit :=
  ⟨s, ()⟩

/-- A fresh progress object: no bytes moved, no terminal error. -/
def freshProgress : RequestProgress Unit := ⟨0, 0, none⟩

/-! ### Spec-side resolution rules

Second definitions following the spec's words for the construction rule, to
be compared with `mkErr` (which is the source embedding): message resolves in
priority order — explicit nonempty message argument, else the kind's
table-default message, else the wrapped cause's message, else empty string;
status resolves — explicit nonzero override, else the kind's table-default
status, else 500. -/

/-- Spec-side message fallback once the explicit message is out of the
picture: table default, else cause message, else `""`. -/
def specMessageFallback : Option String → Option String → String
  | some dm, _ => dm
  | none, some cm => cm
  | none, none => ""

/-- Spec-side message resolution: explicit nonempty message, else table
default, else cause message, else `""`. -/
def specMessage (explicit table causeMsg : Option String) : String :=
  match explicit with
  | some m => if m = "" then specMessageFallback table causeMsg else m
  | none => specMessageFallback table causeMsg

/-- Spec-side status fallback once the explicit status is out of the
picture: table default, else `500`. -/
def specStatusFallback : Option Nat → Nat
  | some ds => ds
  | none => 500

/-- Spec-side status resolution: explicit nonzero status, else table
default, else `500`. -/
def specStatus (explicit table : Option Nat) : Nat :=
  match explicit with
  | some s => if s = 0 then specStatusFallback table else s
  | none => specStatusFallback table

/-- Every `messages` table entry is a nonempty string, so the source's falsy
check on a table hit never fires. -/
lemma messages_ne_empty (code : ErrorCode) (dm : String)
    (h : messages code = some dm) : dm ≠ "" := by
  cases code <;> simp [messages] at h <;> simp [← h]

/-- Every `statusCodes` table entry is nonzero, so the source's falsy check
on a table hit never fires. -/
lemma statusCodes_ne_zero (code : ErrorCode) (ds : Nat)
    (h : statusCodes code = some ds) : ds ≠ 0 := by
  cases code <;> simp [statusCodes] at h <;> omega

/-- The message fallback chain of `mkErr` (explicit message absent or empty)
agrees with the spec-side resolution. -/
lemma jsOrStr_chain_eq_specMessage (code : ErrorCode) (ce : Option JsError) :
    jsOrStr (messages code) (jsOrStr (ce.map JsError.message) "")
      = specMessageFallback (messages code) (ce.map JsError.message) := by
  rcases h : messages code with _ | dm
  · rcases ce with _ | c
    · simp [jsOrStr, specMessageFallback]
    · simp only [Option.map_some', jsOrStr, specMessageFallback]
      split <;> simp_all
  · have hne := messages_ne_empty code dm h
    rcases ce with _ | c <;> simp [jsOrStr, specMessageFallback, hne]

/-- The status fallback chain of `mkErr` (explicit status absent or zero)
agrees with the spec-side resolution. -/
lemma jsOrNat_chain_eq_specStatus (code : ErrorCode) :
    jsOrNat (statusCodes code) 500 = specStatusFallback (statusCodes code) := by
  rcases h : statusCodes code with _ | ds
  · simp [jsOrNat, specStatusFallback]
  · have hne := statusCodes_ne_zero code ds h
    simp [jsOrNat, specStatusFallback, hne]

/-- `mkErr`'s message field equals the spec-side resolution of the explicit
message, the table default and the cause message. -/
lemma mkErr_message (code : ErrorCode) (msg : Option String) (opts : ErrOpts) :
    (mkErr code msg opts).message
      = specMessage msg (messages code) (opts.error.map JsError.message) := by
  rcases msg with _ | m
  · simpa [mkErr, specMessage] using jsOrStr_chain_eq_specMessage code opts.error
  · by_cases hm : m = ""
    · subst hm
      simpa [mkErr, jsOrStr, specMessage] using
        jsOrStr_chain_eq_specMessage code opts.error
    · simp [mkErr, jsOrStr, specMessage, hm]

/-- `mkErr`'s status field equals the spec-side resolution of the explicit
status and the table default. -/
lemma mkErr_status (code : ErrorCode) (msg : Option String) (opts : ErrOpts) :
    (mkErr code msg opts).status = specStatus opts.status (statusCodes code) := by
  rcases hst : opts.status with _ | s
  · simpa [mkErr, hst, specStatus] using jsOrNat_chain_eq_specStatus code
  · by_cases h0 : s = 0
    · subst h0
      simpa [mkErr, hst, jsOrNat, specStatus] using jsOrNat_chain_eq_specStatus code
    · simp [mkErr, hst, jsOrNat, specStatus, h0]

/-- With no cause, the spec-side message fallback collapses to `getD`. -/
lemma specMessageFallback_none_getD (t : Option String) :
    specMessageFallback t none = t.getD "" := by
  rcases t with _ | dm <;> simp [specMessageFallback]

/-- The spec-side status fallback is `getD 500`. -/
lemma specStatusFallback_getD (t : Option Nat) :
    specStatusFallback t = t.getD 500 := by
  rcases t with _ | ds <;> simp [specStatusFallback]

/-- Spec-side message resolution with no table entry and no cause returns
the explicit message whether or not it is empty. -/
lemma specMessage_some_none_none (t : String) :
    specMessage (some t) none none = t := by
  by_cases h : t = "" <;> simp [specMessage, specMessageFallback, h]

/-- Spec-side status resolution with no table entry. -/
lemma specStatus_some_none (s : Nat) :
    specStatus (some s) none = if s = 0 then 500 else s := by
  simp [specStatus, specStatusFallback]

/-- C5 counterexample: the claim gives the explicit message argument top
priority unconditionally, but constructing with the explicit message `""`
yields the table default of `ACCOUNT_EXISTS`, not `""`. -/
theorem err_resolution_claim_cex :
    (mkErr ErrorCode.ACCOUNT_EXISTS (some "") ErrOpts.default).message
      = "This account already exists."
    ∧ "This account already exists." ≠ "" := by
  constructor
  · simp [mkErr, jsOrStr, messages, ErrOpts.default]
  · decide

/-- C5 (amended): for every code and combination of constructor arguments,
`mkErr` resolves the message as — explicit *nonempty* message argument, else
the kind's table-default message, else the wrapped cause's message, else
empty string — and the status as — explicit *nonzero* override, else the
kind's table-default status, else 500; in particular, constructing with no
explicit message, no explicit status and no cause yields the kind's
table-default message (or `""` if none) and the kind's table-default status
(or 500 if none). -/
theorem err_constructor_resolution (code : ErrorCode) (msg : Option String)
    (opts : ErrOpts) :
    (mkErr code msg opts).message
      = specMessage msg (messages code) (opts.error.map JsError.message)
    ∧ (mkErr code msg opts).status = specStatus opts.status (statusCodes code)
    ∧ (mkErr code none ⟨opts.report, opts.display, opts.status, none⟩).message
      = (messages code).getD ""
    ∧ (mkErr code none ⟨opts.report, opts.display, none, none⟩).status
      = (statusCodes code).getD 500 := by
  refine ⟨mkErr_message code msg opts, mkErr_status code msg opts, ?_, ?_⟩
  · rw [mkErr_message]
    simp [specMessage, specMessageFallback_none_getD]
  · rw [mkErr_status]
    simp [specStatus, specStatusFallback_getD]

/-- C7 counterexample: the claim says an explicitly supplied status is
always returned exactly, but an explicit status of `0` is falsy and the
constructed status is the table default of `BAD_REQUEST` (400), not `0`. -/
theorem err_status_override_cex :
    (mkErr ErrorCode.BAD_REQUEST (some "msg") ⟨none, none, some 0, none⟩).status
      = 400
    ∧ (400 : Nat) ≠ 0 := by
  constructor
  · simp [mkErr, jsOrNat, statusCodes]
  · decide

/-- C7 (amended): for every kind, message and explicitly supplied *nonzero*
status, reading `.status` of the constructed `Err` returns the explicitly
supplied status — a nonzero explicit override always wins over the table
defaults and the 500 fallback. -/
theorem err_status_explicit_override (code : ErrorCode) (msg : Option String)
    (r d : Option Bool) (e : Option JsError) (s : Nat) (hs : s ≠ 0) :
    (mkErr code msg ⟨r, d, some s, e⟩).status = s := by
  simp [mkErr, jsOrNat, hs]

/-- Witness for the amended C7 at the spec's own example:
`Err(kind, msg, {status: 418}).status = 418`. -/
theorem err_status_explicit_override_wit :
    (mkErr ErrorCode.NOT_FOUND (some "m") ⟨none, none, some 418, none⟩).status
      = 418 :=
  err_status_explicit_override ErrorCode.NOT_FOUND (some "m") none none none 418
    (by decide)

/-- C8: after every `Err` construction, `display` equals `report` — both are
computed from `opts.report` — and the `display` option is never read, so
changing it does not change the constructed value at all. -/
theorem err_display_equals_report (code : ErrorCode) (msg : Option String)
    (opts : ErrOpts) (d : Option Bool) :
    (mkErr code msg opts).display = (mkErr code msg opts).report
    ∧ (mkErr code msg opts).display = opts.report.getD false
    ∧ mkErr code msg ⟨opts.report, d, opts.status, opts.error⟩
      = mkErr code msg opts :=
  ⟨rfl, rfl, rfl⟩

/-- C9: falsy explicit overrides are treated as absent by the `Err`
constructor — an explicit status of `0` behaves exactly like no status (the
result is the table default or 500), and an explicit empty-string message
behaves exactly like no message (the result falls through the table-default
and cause-message chain). -/
theorem err_falsy_overrides_absent (code : ErrorCode) (msg : Option String)
    (opts : ErrOpts) :
    mkErr code (some "") opts = mkErr code none opts
    ∧ mkErr code msg ⟨opts.report, opts.display, some 0, opts.error⟩
      = mkErr code msg ⟨opts.report, opts.display, none, opts.error⟩
    ∧ (mkErr code msg ⟨opts.report, opts.display, some 0, opts.error⟩).status
      = (statusCodes code).getD 500
    ∧ (mkErr code (some "") ⟨opts.report, opts.display, opts.status, none⟩).message
      = (messages code).getD "" := by
  refine ⟨?_, ?_, ?_, ?_⟩
  · simp [mkErr, jsOrStr]
  · simp [mkErr, jsOrNat]
  · rw [mkErr_status]
    simp [specStatus, specStatusFallback_getD]
  · rw [mkErr_message]
    simp [specMessage, specMessageFallback_none_getD]

/-- C3 counterexample: the claim says every heuristic branch carries the
transport status, but at status `0` (the connection-failure branch itself)
the constructed status is 500, not the transport status `0`. -/
theorem errFromRequest_claim_cex :
    (errFromRequest none "" 0).code = ErrorCode.FAILED_CONNECTION
    ∧ (errFromRequest none "" 0).status = 500
    ∧ (500 : Nat) ≠ 0 := by
  refine ⟨?_, ?_, by decide⟩ <;> rfl

/-- C3 (amended): `errFromRequest` produces exactly one `Err`: on a
recognizable structured payload, its kind is the server-declared kind, its
message the server message when nonempty (else the kind's table default,
else empty), its status the transport status when nonzero (else the kind's
table default, else 500); on parse failure, the kind is chosen by the first
character of the decimal rendering of the status ('0' connection-failed,
'3' unexpected-redirect, '4' client-error, else server-error), the message
is the raw body text, and the status is the transport status when nonzero,
else 500. -/
theorem errFromRequest_characterization (parsed : Option StructuredPayload)
    (text : String) (status : Nat) :
    (∀ p, parsed = some p →
       (errFromRequest parsed text status).code = p.error
       ∧ (errFromRequest parsed text status).message
         = specMessage (some p.message) (messages p.error) none
       ∧ (errFromRequest parsed text status).status
         = specStatus (some status) (statusCodes p.error))
    ∧ (parsed = none →
       (errFromRequest parsed text status).message = text
       ∧ (errFromRequest parsed text status).status
         = (if status = 0 then 500 else status)
       ∧ ((Nat.repr status).front = '0' →
            (errFromRequest parsed text status).code = ErrorCode.FAILED_CONNECTION)
       ∧ ((Nat.repr status).front = '3' →
            (errFromRequest parsed text status).code = ErrorCode.UNEXPECTED_REDIRECT)
       ∧ ((Nat.repr status).front = '4' →
            (errFromRequest parsed text status).code = ErrorCode.CLIENT_ERROR)
       ∧ ((Nat.repr status).front ≠ '0' → (Nat.repr status).front ≠ '3' →
            (Nat.repr status).front ≠ '4' →
            (errFromRequest parsed text status).code = ErrorCode.SERVER_ERROR)) := by
  constructor
  · rintro p rfl
    refine ⟨rfl, ?_, ?_⟩
    · simpa [errFromRequest] using mkErr_message p.error (some p.message) ⟨none, none, some status, none⟩
    · simpa [errFromRequest] using mkErr_status p.error (some p.message) ⟨none, none, some status, none⟩
  · rintro rfl
    have hmsg : ∀ k : ErrorCode, messages k = none →
        (mkErr k (some text) ⟨none, none, some status, none⟩).message = text := by
      intro k hk
      rw [mkErr_message]
      simp [hk, specMessage_some_none_none]
    have hstat : ∀ k : ErrorCode, statusCodes k = none →
        (mkErr k (some text) ⟨none, none, some status, none⟩).status
          = (if status = 0 then 500 else status) := by
      intro k hk
      rw [mkErr_status]
      simp [hk, specStatus_some_none]
    by_cases h0 : (Nat.repr status).front = '0'
    · have he : errFromRequest none text status
          = mkErr ErrorCode.FAILED_CONNECTION (some text) ⟨none, none, some status, none⟩ := by
        simp [errFromRequest, h0]
      rw [he]
      refine ⟨hmsg ErrorCode.FAILED_CONNECTION rfl, hstat ErrorCode.FAILED_CONNECTION rfl,
        fun _ => rfl, fun h => ?_, fun h => ?_, fun h _ _ => absurd h0 h⟩ <;>
        · rw [h] at h0
          exact absurd h0 (by decide)
    · by_cases h3 : (Nat.repr status).front = '3'
      · have he : errFromRequest none text status
            = mkErr ErrorCode.UNEXPECTED_REDIRECT (some text) ⟨none, none, some status, none⟩ := by
          simp [errFromRequest, h0, h3]
        rw [he]
        refine ⟨hmsg ErrorCode.UNEXPECTED_REDIRECT rfl, hstat ErrorCode.UNEXPECTED_REDIRECT rfl,
          fun h => absurd h h0, fun _ => rfl, fun h => ?_, fun _ h _ => absurd h3 h⟩
        rw [h] at h3
        exact absurd h3 (by decide)
      · by_cases h4 : (Nat.repr status).front = '4'
        · have he : errFromRequest none text status
              = mkErr ErrorCode.CLIENT_ERROR (some text) ⟨none, none, some status, none⟩ := by
            simp [errFromRequest, h0, h3, h4]
          rw [he]
          exact ⟨hmsg ErrorCode.CLIENT_ERROR rfl, hstat ErrorCode.CLIENT_ERROR rfl,
            fun h => absurd h h0, fun h => absurd h h3, fun _ => rfl,
            fun _ _ h => absurd h4 h⟩
        · have he : errFromRequest none text status
              = mkErr ErrorCode.SERVER_ERROR (some text) ⟨none, none, some status, none⟩ := by
            simp [errFromRequest, h0, h3, h4]
          rw [he]
          exact ⟨hmsg ErrorCode.SERVER_ERROR rfl, hstat ErrorCode.SERVER_ERROR rfl,
            fun h => absurd h h0, fun h => absurd h h3, fun h => absurd h h4,
            fun _ _ _ => rfl⟩

/-- Witness for the amended C3: a structured `session_expired` payload keeps
the server kind; an unparsable 404 body maps to `client_error`. -/
theorem errFromRequest_characterization_wit :
    (errFromRequest (some ⟨ErrorCode.SESSION_EXPIRED, "x"⟩) "body" 401).code
      = ErrorCode.SESSION_EXPIRED
    ∧ (errFromRequest none "not found" 404).code = ErrorCode.CLIENT_ERROR :=
  ⟨((errFromRequest_characterization (some ⟨ErrorCode.SESSION_EXPIRED, "x"⟩)
      "body" 401).1 ⟨ErrorCode.SESSION_EXPIRED, "x"⟩ rfl).1,
   ((errFromRequest_characterization none "not found" 404).2 rfl).2.2.2.2.1
      (by decide)⟩

/-! ### Scenario lemmas for `Client.call`

One lemma per control-flow path of the pipeline, each computing the full
`CallOutcome` from hypotheses pinning the collaborator outcomes. -/

section CallScenarios

variable {P D R ε : Type} (state : ClientState P D R ε) (sender : Sender P D R ε)
variable (method : String) (params : Option P) (progress : Option (RequestProgress ε))

/-- No session, transport raises: the exception is recorded on progress and
re-raised; only `send` ran; the unauthenticated envelope was sent. -/
lemma call_none_send_error (e : ε) (hs : state.session = none)
    (hsend : sender.send ⟨method, params, state.device⟩ = Except.error e) :
    Client.call state sender method params progress
      = ⟨Except.error (CallFailure.transportFailed e),
         setProgressError progress (Sum.inl e), [EvKind.send],
         some ⟨method, params, state.device⟩⟩ := by
  simp [Client.call, authStep, hs, hsend]

/-- No session, transport responds with a structured error: a typed `Err`
is built from it, recorded on progress, and raised. -/
lemma call_none_res_error (res : Response R) (re : ResError) (hs : state.session = none)
    (hsend : sender.send ⟨method, params, state.device⟩ = Except.ok res)
    (hre : res.error = some re) :
    Client.call state sender method params progress
      = ⟨Except.error (CallFailure.structuredError (mkErr re.code (some re.message) ErrOpts.default)),
         setProgressError progress (Sum.inr (mkErr re.code (some re.message) ErrOpts.default)),
         [EvKind.send], some ⟨method, params, state.device⟩⟩ := by
  simp [Client.call, authStep, hs, hsend, hre]

/-- No session, error-free response: the response is returned as is;
`verify` never runs. -/
lemma call_none_ok (res : Response R) (hs : state.session = none)
    (hsend : sender.send ⟨method, params, state.device⟩ = Except.ok res)
    (hre : res.error = none) :
    Client.call state sender method params progress
      = ⟨Except.ok res, progress, [EvKind.send],
         some ⟨method, params, state.device⟩⟩ := by
  simp [Client.call, authStep, hs, hsend, hre]

/-- Session active, `authenticate` rejects: the rejection propagates, the
transport is never reached, progress is untouched. -/
lemma call_some_auth_error (s : Session P D R ε) (e : ε) (hs : state.session = some s)
    (ha : s.authenticate ⟨method, params, state.device⟩ = Except.error e) :
    Client.call state sender method params progress
      = ⟨Except.error (CallFailure.authFailed e), progress,
         [EvKind.authenticate], none⟩ := by
  simp [Client.call, authStep, hs, ha]

/-- Session active, `authenticate` succeeds, transport raises: the exception
is recorded on progress and re-raised; the authenticated envelope was sent. -/
lemma call_some_send_error (s : Session P D R ε) (req' : Request P D) (e : ε)
    (hs : state.session = some s)
    (ha : s.authenticate ⟨method, params, state.device⟩ = Except.ok req')
    (hsend : sender.send req' = Except.error e) :
    Client.call state sender method params progress
      = ⟨Except.error (CallFailure.transportFailed e),
         setProgressError progress (Sum.inl e),
         [EvKind.authenticate, EvKind.send], some req'⟩ := by
  simp [Client.call, authStep, hs, ha, hsend]

/-- Session active, structured error in the response: a typed `Err` is built
from it, recorded on progress, and raised; `verify` never runs. -/
lemma call_some_res_error (s : Session P D R ε) (req' : Request P D)
    (res : Response R) (re : ResError) (hs : state.session = some s)
    (ha : s.authenticate ⟨method, params, state.device⟩ = Except.ok req')
    (hsend : sender.send req' = Except.ok res) (hre : res.error = some re) :
    Client.call state sender method params progress
      = ⟨Except.error (CallFailure.structuredError (mkErr re.code (some re.message) ErrOpts.default)),
         setProgressError progress (Sum.inr (mkErr re.code (some re.message) ErrOpts.default)),
         [EvKind.authenticate, EvKind.send], some req'⟩ := by
  simp [Client.call, authStep, hs, ha, hsend, hre]

/-- Session active, error-free response, `verify` itself rejects: the
rejection propagates, progress is untouched. -/
lemma call_some_verify_error (s : Session P D R ε) (req' : Request P D)
    (res : Response R) (e : ε) (hs : state.session = some s)
    (ha : s.authenticate ⟨method, params, state.device⟩ = Except.ok req')
    (hsend : sender.send req' = Except.ok res) (hre : res.error = none)
    (hv : s.verify res = Except.error e) :
    Client.call state sender method params progress
      = ⟨Except.error (CallFailure.verifyFailed e), progress,
         [EvKind.authenticate, EvKind.send, EvKind.verify], some req'⟩ := by
  simp [Client.call, authStep, hs, ha, hsend, hre, hv]

/-- Session active, error-free response, `verify` answers `false`: an
`INVALID_RESPONSE` error is built, recorded on progress, and raised. -/
lemma call_some_verify_false (s : Session P D R ε) (req' : Request P D)
    (res : Response R) (hs : state.session = some s)
    (ha : s.authenticate ⟨method, params, state.device⟩ = Except.ok req')
    (hsend : sender.send req' = Except.ok res) (hre : res.error = none)
    (hv : s.verify res = Except.ok false) :
    Client.call state sender method params progress
      = ⟨Except.error (CallFailure.verifyRejected (mkErr ErrorCode.INVALID_RESPONSE none ErrOpts.default)),
         setProgressError progress (Sum.inr (mkErr ErrorCode.INVALID_RESPONSE none ErrOpts.default)),
         [EvKind.authenticate, EvKind.send, EvKind.verify], some req'⟩ := by
  simp [Client.call, authStep, hs, ha, hsend, hre, hv]

/-- Session active, error-free response, `verify` answers `true`: the
response is returned. -/
lemma call_some_verify_true (s : Session P D R ε) (req' : Request P D)
    (res : Response R) (hs : state.session = some s)
    (ha : s.authenticate ⟨method, params, state.device⟩ = Except.ok req')
    (hsend : sender.send req' = Except.ok res) (hre : res.error = none)
    (hv : s.verify res = Except.ok true) :
    Client.call state sender method params progress
      = ⟨Except.ok res, progress,
         [EvKind.authenticate, EvKind.send, EvKind.verify], some req'⟩ := by
  simp [Client.call, authStep, hs, ha, hsend, hre, hv]

end CallScenarios

/-- C1: with a null session, `authenticate` and `verify` are never invoked
and the envelope is sent unauthenticated; with a non-null session,
`authenticate` is invoked first and completes before any `send`, `verify`
runs only after a structured-error-free response, and no call returns
successfully unless `verify` was performed and affirmative. -/
theorem call_pipeline_ordering {P D R ε : Type} (state : ClientState P D R ε)
    (sender : Sender P D R ε) (method : String) (params : Option P)
    (progress : Option (RequestProgress ε)) :
    (state.session = none →
       (Client.call state sender method params progress).trace = [EvKind.send]
       ∧ (Client.call state sender method params progress).sentReq
           = some ⟨method, params, state.device⟩)
    ∧ (∀ s, state.session = some s →
       (Client.call state sender method params progress).trace
         ∈ [[EvKind.authenticate], [EvKind.authenticate, EvKind.send],
            [EvKind.authenticate, EvKind.send, EvKind.verify]]
       ∧ (∀ res, (Client.call state sender method params progress).result
             = Except.ok res →
           (Client.call state sender method params progress).trace
             = [EvKind.authenticate, EvKind.send, EvKind.verify]
           ∧ res.error = none ∧ s.verify res = Except.ok true)
       ∧ (∀ err, (Client.call state sender method params progress).result
             = Except.error (CallFailure.structuredError err) →
           EvKind.verify ∉ (Client.call state sender method params progress).trace)) := by
  rcases hs : state.session with _ | s
  · refine ⟨fun _ => ?_, fun s hcon => by simp [hs] at hcon⟩
    rcases hsend : sender.send ⟨method, params, state.device⟩ with e | res
    · rw [call_none_send_error state sender method params progress e hs hsend]
      exact ⟨rfl, rfl⟩
    · rcases hre : res.error with _ | re
      · rw [call_none_ok state sender method params progress res hs hsend hre]
        exact ⟨rfl, rfl⟩
      · rw [call_none_res_error state sender method params progress res re hs hsend hre]
        exact ⟨rfl, rfl⟩
  · refine ⟨fun hcon => by simp [hs] at hcon, fun s' hs' => ?_⟩
    cases hs'
    rcases ha : s.authenticate ⟨method, params, state.device⟩ with e | req'
    · rw [call_some_auth_error state sender method params progress s e hs ha]
      refine ⟨by simp, fun res h => ?_, fun err h => ?_⟩ <;> simp at h
    · rcases hsend : sender.send req' with e | res
      · rw [call_some_send_error state sender method params progress s req' e hs ha hsend]
        refine ⟨by simp, fun res h => ?_, fun err h => ?_⟩ <;> simp at h
      · rcases hre : res.error with _ | re
        · rcases hv : s.verify res with e | b
          · rw [call_some_verify_error state sender method params progress s req' res e hs ha hsend hre hv]
            refine ⟨by simp, fun res' h => ?_, fun err h => ?_⟩ <;> simp at h
          · rcases b with _ | _
            · rw [call_some_verify_false state sender method params progress s req' res hs ha hsend hre hv]
              refine ⟨by simp, fun res' h => ?_, fun err h => ?_⟩ <;> simp at h
            · rw [call_some_verify_true state sender method params progress s req' res hs ha hsend hre hv]
              refine ⟨by simp, fun res' h => ?_, fun err h => ?_⟩
              · have hres : res = res' := by simpa using h
                subst hres
                exact ⟨rfl, hre, hv⟩
              · simp at h
        · rw [call_some_res_error state sender method params progress s req' res re hs ha hsend hre]
          refine ⟨by simp, fun res' h => ?_, fun err h => ?_⟩
          · simp at h
          · simp

/-- Witness for C1: with an accepting session and a clean transport the
trace is authenticate–send–verify; with no session only `send` runs. -/
theorem call_pipeline_ordering_wit :
    (Client.call (stateWith (some acceptingSession)) okSender "getAccount" none none).trace
      = [EvKind.authenticate, EvKind.send, EvKind.verify]
    ∧ (Client.call (stateWith none) okSender "initAuth" none none).trace
      = [EvKind.send] :=
  ⟨(((call_pipeline_ordering (stateWith (some acceptingSession)) okSender
        "getAccount" none none).2 acceptingSession rfl).2.1 ⟨none, ()⟩ rfl).1,
   ((call_pipeline_ordering (stateWith none) okSender "initAuth" none none).1 rfl).1⟩

/-- C2: with a non-null session, a successful transport exchange, a response
free of structured error and `verify` resolving to `false`, the call rejects
with an `Err` whose code is `ErrorCode.INVALID_RESPONSE`. -/
theorem call_verify_false_rejects {P D R ε : Type} (state : ClientState P D R ε)
    (sender : Sender P D R ε) (method : String) (params : Option P)
    (progress : Option (RequestProgress ε)) (s : Session P D R ε)
    (req' : Request P D) (res : Response R) (hs : state.session = some s)
    (ha : s.authenticate ⟨method, params, state.device⟩ = Except.ok req')
    (hsend : sender.send req' = Except.ok res) (hre : res.error = none)
    (hv : s.verify res = Except.ok false) :
    (Client.call state sender method params progress).result
      = Except.error (CallFailure.verifyRejected
          (mkErr ErrorCode.INVALID_RESPONSE none ErrOpts.default))
    ∧ (mkErr ErrorCode.INVALID_RESPONSE none ErrOpts.default).code
      = ErrorCode.INVALID_RESPONSE
    ∧ (CallFailure.verifyRejected
          (mkErr ErrorCode.INVALID_RESPONSE none ErrOpts.default) : CallFailure ε).payload
      = Sum.inr (mkErr ErrorCode.INVALID_RESPONSE none ErrOpts.default) := by
  rw [call_some_verify_false state sender method params progress s req' res hs ha hsend hre hv]
  exact ⟨rfl, rfl, rfl⟩

/-- Witness for C2: a rejecting session over a clean transport yields the
`INVALID_RESPONSE` rejection. -/
theorem call_verify_false_rejects_wit :
    (Client.call (stateWith (some rejectingSession)) okSender "getVault" none none).result
      = Except.error (CallFailure.verifyRejected
          (mkErr ErrorCode.INVALID_RESPONSE none ErrOpts.default)) :=
  (call_verify_false_rejects (stateWith (some rejectingSession)) okSender
     "getVault" none none rejectingSession ⟨"getVault", none, ()⟩ ⟨none, ()⟩
     rfl rfl rfl rfl rfl).1

/-- The status of an `Err` built with the empty options object is the
kind's table default, or 500 when the kind is unmapped. -/
lemma mkErr_default_status (code : ErrorCode) (msg : Option String) :
    (mkErr code msg ErrOpts.default).status = (statusCodes code).getD 500 := by
  rw [mkErr_status]
  simp [ErrOpts.default, specStatus, specStatusFallback_getD]

/-- C4: when the transport response carries a structured `error` field, the
call raises an `Err` built from the declared code and message with no
explicit status override — so its status is the kind's table default (or
500 when unmapped) — and the error is assigned to the supplied progress
object before being raised. -/
theorem call_structured_error_typed {P D R ε : Type} (state : ClientState P D R ε)
    (sender : Sender P D R ε) (method : String) (params : Option P)
    (progress : Option (RequestProgress ε)) (req' : Request P D)
    (res : Response R) (re : ResError)
    (ha : authStep state.session ⟨method, params, state.device⟩ = Except.ok req')
    (hsend : sender.send req' = Except.ok res) (hre : res.error = some re) :
    (Client.call state sender method params progress).result
      = Except.error (CallFailure.structuredError
          (mkErr re.code (some re.message) ErrOpts.default))
    ∧ (mkErr re.code (some re.message) ErrOpts.default).status
      = (statusCodes re.code).getD 500
    ∧ (Client.call state sender method params progress).progress
      = setProgressError progress
          (Sum.inr (mkErr re.code (some re.message) ErrOpts.default))
    ∧ ∀ p, progress = some p →
        (Client.call state sender method params progress).progress
          = some { p with error := some (Sum.inr (mkErr re.code (some re.message) ErrOpts.default)) } := by
  rcases hs : state.session with _ | s
  · rw [hs] at ha
    simp only [authStep, Except.ok.injEq] at ha
    subst ha
    rw [call_none_res_error state sender method params progress res re hs hsend hre]
    refine ⟨rfl, mkErr_default_status re.code (some re.message), rfl, ?_⟩
    rintro p rfl
    rfl
  · rw [hs] at ha
    simp only [authStep] at ha
    rw [call_some_res_error state sender method params progress s req' res re hs ha hsend hre]
    refine ⟨rfl, mkErr_default_status re.code (some re.message), rfl, ?_⟩
    rintro p rfl
    rfl

/-- Witness for C4: a structured `INVALID_SESSION` error coming back over an
unauthenticated call is raised as a typed `Err` with status 401 and recorded
on the progress object. -/
theorem call_structured_error_typed_wit :
    (Client.call (stateWith none) appErrorSender "updateAccount" none
        (some freshProgress)).result
      = Except.error (CallFailure.structuredError
          (mkErr ErrorCode.INVALID_SESSION (some "nope") ErrOpts.default))
    ∧ (mkErr ErrorCode.INVALID_SESSION (some "nope") ErrOpts.default).status = 401 :=
  ⟨(call_structured_error_typed (stateWith none) appErrorSender "updateAccount"
      none (some freshProgress) ⟨"updateAccount", none, ()⟩
      ⟨some ⟨ErrorCode.INVALID_SESSION, "nope"⟩, ()⟩
      ⟨ErrorCode.INVALID_SESSION, "nope"⟩ rfl rfl rfl).1,
   (call_structured_error_typed (stateWith none) appErrorSender "updateAccount"
      none (some freshProgress) ⟨"updateAccount", none, ()⟩
      ⟨some ⟨ErrorCode.INVALID_SESSION, "nope"⟩, ()⟩
      ⟨ErrorCode.INVALID_SESSION, "nope"⟩ rfl rfl rfl).2.1⟩

/-- C6: when a progress object with no terminal error is supplied, a failing
call writes the raised error to the progress object exactly on the three
progress-writing paths (transport exception, structured application error,
negative verification), and a successful call leaves the progress object
untouched, its `error` field still unset. -/
theorem call_progress_terminal_error {P D R ε : Type} (state : ClientState P D R ε)
    (sender : Sender P D R ε) (method : String) (params : Option P)
    (p : RequestProgress ε) (_hp : p.error = none) :
    (∀ res, (Client.call state sender method params (some p)).result
        = Except.ok res →
      (Client.call state sender method params (some p)).progress = some p)
    ∧ (∀ f, (Client.call state sender method params (some p)).result
        = Except.error f →
      (f.writesProgress = true →
        (Client.call state sender method params (some p)).progress
          = some { p with error := some (CallFailure.payload f) })
      ∧ (f.writesProgress = false →
        (Client.call state sender method params (some p)).progress = some p)) := by
  rcases hs : state.session with _ | s
  · rcases hsend : sender.send ⟨method, params, state.device⟩ with e | res
    · rw [call_none_send_error state sender method params (some p) e hs hsend]
      refine ⟨fun res h => ?_, fun f h => ?_⟩
      · simp at h
      · simp only [Except.error.injEq] at h
        subst h
        exact ⟨fun _ => rfl, fun hc => by simp [CallFailure.writesProgress] at hc⟩
    · rcases hre : res.error with _ | re
      · rw [call_none_ok state sender method params (some p) res hs hsend hre]
        refine ⟨fun res' h => rfl, fun f h => ?_⟩
        simp at h
      · rw [call_none_res_error state sender method params (some p) res re hs hsend hre]
        refine ⟨fun res' h => ?_, fun f h => ?_⟩
        · simp at h
        · simp only [Except.error.injEq] at h
          subst h
          exact ⟨fun _ => rfl, fun hc => by simp [CallFailure.writesProgress] at hc⟩
  · rcases ha : s.authenticate ⟨method, params, state.device⟩ with e | req'
    · rw [call_some_auth_error state sender method params (some p) s e hs ha]
      refine ⟨fun res h => ?_, fun f h => ?_⟩
      · simp at h
      · simp only [Except.error.injEq] at h
        subst h
        exact ⟨fun hc => by simp [CallFailure.writesProgress] at hc, fun _ => rfl⟩
    · rcases hsend : sender.send req' with e | res
      · rw [call_some_send_error state sender method params (some p) s req' e hs ha hsend]
        refine ⟨fun res h => ?_, fun f h => ?_⟩
        · simp at h
        · simp only [Except.error.injEq] at h
          subst h
          exact ⟨fun _ => rfl, fun hc => by simp [CallFailure.writesProgress] at hc⟩
      · rcases hre : res.error with _ | re
        · rcases hv : s.verify res with e | b
          · rw [call_some_verify_error state sender method params (some p) s req' res e hs ha hsend hre hv]
            refine ⟨fun res' h => ?_, fun f h => ?_⟩
            · simp at h
            · simp only [Except.error.injEq] at h
              subst h
              exact ⟨fun hc => by simp [CallFailure.writesProgress] at hc, fun _ => rfl⟩
          · rcases b with _ | _
            · rw [call_some_verify_false state sender method params (some p) s req' res hs ha hsend hre hv]
              refine ⟨fun res' h => ?_, fun f h => ?_⟩
              · simp at h
              · simp only [Except.error.injEq] at h
                subst h
                exact ⟨fun _ => rfl, fun hc => by simp [CallFailure.writesProgress] at hc⟩
            · rw [call_some_verify_true state sender method params (some p) s req' res hs ha hsend hre hv]
              refine ⟨fun res' h => rfl, fun f h => ?_⟩
              simp at h
        · rw [call_some_res_error state sender method params (some p) s req' res re hs ha hsend hre]
          refine ⟨fun res' h => ?_, fun f h => ?_⟩
          · simp at h
          · simp only [Except.error.injEq] at h
            subst h
            exact ⟨fun _ => rfl, fun hc => by simp [CallFailure.writesProgress] at hc⟩

/-- Witness for C6: a raising transport writes its exception to the
supplied fresh progress object. -/
theorem call_progress_terminal_error_wit :
    (Client.call (stateWith none) failingSender "createAttachment" none
        (some freshProgress)).progress
      = some { freshProgress with error := some (Sum.inl ()) } :=
  ((call_progress_terminal_error (stateWith none) failingSender
      "createAttachment" none freshProgress rfl).2
     (CallFailure.transportFailed ()) rfl).1 rfl

/-- C10: when verification fails and a progress object was supplied, the
`INVALID_RESPONSE` error is assigned to the progress object's `error` field
and the same error is the one the call rejects with. -/
theorem call_verify_false_writes_progress {P D R ε : Type}
    (state : ClientState P D R ε) (sender : Sender P D R ε) (method : String)
    (params : Option P) (p : RequestProgress ε) (s : Session P D R ε)
    (req' : Request P D) (res : Response R) (hs : state.session = some s)
    (ha : s.authenticate ⟨method, params, state.device⟩ = Except.ok req')
    (hsend : sender.send req' = Except.ok res) (hre : res.error = none)
    (hv : s.verify res = Except.ok false) :
    (Client.call state sender method params (some p)).progress
      = some { p with error := some (Sum.inr (mkErr ErrorCode.INVALID_RESPONSE none ErrOpts.default)) }
    ∧ (Client.call state sender method params (some p)).result
      = Except.error (CallFailure.verifyRejected
          (mkErr ErrorCode.INVALID_RESPONSE none ErrOpts.default)) := by
  rw [call_some_verify_false state sender method params (some p) s req' res hs ha hsend hre hv]
  exact ⟨rfl, rfl⟩

/-- Witness for C10: a rejecting session over a clean transport writes the
`INVALID_RESPONSE` error to the supplied fresh progress object. -/
theorem call_verify_false_writes_progress_wit :
    (Client.call (stateWith (some rejectingSession)) okSender "getAttachment"
        none (some freshProgress)).progress
      = some { freshProgress with error := some (Sum.inr (mkErr ErrorCode.INVALID_RESPONSE none ErrOpts.default)) } :=
  (call_verify_false_writes_progress (stateWith (some rejectingSession))
     okSender "getAttachment" none freshProgress rejectingSession
     ⟨"getAttachment", none, ()⟩ ⟨none, ()⟩ rfl rfl rfl rfl rfl).1

end Padloc

